import Mathlib

/-!
# Stream pusher: failure classification, relay invocation, bounded retry loop, preflight

A shallow embedding of `main.go`.  Go strings are Lean strings (every marker the
program searches for is ASCII), Go `int` is `Int` with explicit wrap-around at
64 bits, Go `error` values are `Option GoError` (`none` is `nil`).  Calls that
leave the program (`url.Parse`, `http.Client.Head`, launching and waiting for the
relay process) are answered by an explicit environment.  Log lines are not part
of the model, except the hint lines of `PrintErrorSuggestion`.
-/

namespace PushStream

/-! ## Strings -/

/-- Go `strings.HasPrefix` on character lists. -/
def hasPrefix : List Char → List Char → Bool
  | _, [] => true
  | [], _ :: _ => false
  | c :: cs, p :: ps => c == p && hasPrefix cs ps

/-- Go `strings.Index`: the position of the first occurrence of `substr` in `s`
at or after offset `i` (the characters before `i` already consumed), `-1` when
there is none. -/
def indexFrom : List Char → List Char → Int → Int
  | [], substr, i => if hasPrefix [] substr then i else -1
  | c :: cs, substr, i =>
    if hasPrefix (c :: cs) substr then i else indexFrom cs substr (i + 1)

/-- Go `strings.Index`. -/
def Index (s substr : String) : Int := indexFrom s.toList substr.toList 0

/-- Go `strings.Contains`: `Index(s, substr) >= 0`. -/
def Contains (s substr : String) : Bool := decide (Index s substr ≥ 0)

/-! ## Data model -/

/-- The `ErrorType` of the program is a Go `int`. -/
abbrev ErrorType := Int

def ErrorTypeInputStream : ErrorType := 0
def ErrorTypeRTMPOutput : ErrorType := 1
def ErrorTypeEncoding : ErrorType := 2
def ErrorTypeNetwork : ErrorType := 3
def ErrorTypeUnknown : ErrorType := 4

/-- The handle `*exec.Cmd`: the executable, its argument list and where the
child's two output streams go.  `true` means the stream is the supervisor's own
`os.Stdout` / `os.Stderr`. -/
structure Cmd where
  path : String
  args : List String
  stdoutInherited : Bool
  stderrInherited : Bool
  deriving DecidableEq, Repr

/-- The struct `StreamPusher`. `retryDelay` is a `time.Duration` in nanoseconds. -/
structure StreamPusher where
  inputURL : String
  outputURL : String
  cmd : Option Cmd
  maxRetries : Int
  retryDelay : Int
  currentRetry : Int
  deriving DecidableEq, Repr

/-- A Go `error` value: one handed back by a library call, or one built by
`fmt.Errorf` in this program. -/
inductive GoError where
  | external (msg : String)
  | errorf (msg : String)
  deriving DecidableEq, Repr

/-- The method `Error()` of an `error`. -/
def GoError.Error : GoError → String
  | .external msg => msg
  | .errorf msg => msg

/-- Two's complement wrap-around of a Go `int` (64 bits). -/
def wrapInt (x : Int) : Int := (x + 2 ^ 63) % 2 ^ 64 - 2 ^ 63

/-- The constant `time.Second`, in nanoseconds. -/
def Second : Int := 1000000000

def NewStreamPusher (inputURL outputURL : String) : StreamPusher :=
  { inputURL := inputURL
    outputURL := outputURL
    cmd := none
    maxRetries := 5
    retryDelay := 5 * Second
    currentRetry := 0 }

/-! ## Failure classifier -/

def inputErrors : List String :=
  [ "HTTP error 502", "HTTP error 404", "HTTP error 500",
    "Connection refused", "No route to host",
    "Error opening input file", "Server returned 5XX",
    "Invalid data found when processing input" ]

def rtmpErrors : List String :=
  [ "Broken pipe", "Connection reset by peer",
    "RTMP_SendPacket", "Failed to connect",
    "Handshake failed", "Authentication failed" ]

def encodingErrors : List String :=
  [ "not compatible with flv", "codec not supported",
    "Conversion failed", "Encoder not found" ]

/-- The loop `for _, errStr := range markers { if strings.Contains(output, errStr) { return ... } }`:
`true` when the loop returns from inside its body. -/
def anyMarker (output : String) : List String → Bool
  | [] => false
  | errStr :: rest => if Contains output errStr then true else anyMarker output rest

def AnalyzeError (_sp : StreamPusher) (_exitCode : Int) (output : String) : ErrorType :=
  if anyMarker output inputErrors then ErrorTypeInputStream
  else if anyMarker output rtmpErrors then ErrorTypeRTMPOutput
  else if anyMarker output encodingErrors then ErrorTypeEncoding
  else ErrorTypeUnknown

/-! ## Remediation hints -/

/-- The lines `PrintErrorSuggestion` hands to `log.Println`, in order. -/
def PrintErrorSuggestion (_sp : StreamPusher) (errorType : ErrorType) (output : String) : List String :=
  (if errorType = ErrorTypeInputStream then
    [ "",
      "🔧 输入流问题解决建议:",
      "   1. 检查摄像头设备是否在线: ping 192.168.201.124",
      "   2. 确认摄像头服务是否运行",
      "   3. 尝试在浏览器中打开流地址",
      "   4. 检查网络连接" ]
    ++ (if Contains output "502" then
          [ "   5. 502错误通常表示摄像头服务内部错误，需要重启设备" ]
        else [])
  else if errorType = ErrorTypeRTMPOutput then
    [ "",
      "🔧 RTMP推流问题解决建议:",
      "   1. 检查B站直播间是否已开启",
      "   2. 确认推流码是否正确",
      "   3. 检查RTMP服务器连接: telnet 192.168.200.68 1935",
      "   4. 推流码可能已过期，请重新获取" ]
    ++ (if Contains output "Broken pipe" then
          [ "   5. 'Broken pipe'通常表示服务器主动断开连接",
            "   6. 可能是推流时间限制或推流码问题" ]
        else [])
  else if errorType = ErrorTypeEncoding then
    [ "",
      "🔧 编码问题解决建议:",
      "   1. 尝试不同的编码参数",
      "   2. 检查FFmpeg是否支持所需的编解码器",
      "   3. 输入流格式可能不兼容" ]
  else
    [ "",
      "🔧 通用解决建议:",
      "   1. 检查网络连接",
      "   2. 确认所有服务正常运行",
      "   3. 查看完整的FFmpeg输出日志" ])
  ++ [ "" ]

/-! ## Relay process -/

/-- What one call of `Start` followed by `Wait` meets in the world.
`launchFail err`: `cmd.Start()` returned `err` (executable missing, permission
denied).  `exited diag waitErr`: the process was launched, wrote `diag` to its
diagnostic stream and `cmd.Wait()` returned `waitErr` (`none` for exit status 0,
otherwise the error of the exit, whose text is for instance `exit status 1`). -/
inductive Outcome where
  | launchFail (err : String)
  | exited (diag : String) (waitErr : Option String)
  deriving DecidableEq, Repr

/-- The observable effects of the supervisor.  `start retry cmd launched` is one
call of `Start`: `retry` is the value of `sp.currentRetry` at the call, `cmd` the
command it built and `launched` whether `cmd.Start()` succeeded. -/
inductive Event where
  | sleep (d : Int)
  | start (retry : Int) (cmd : Cmd) (launched : Bool)
  | hints (lines : List String)
  deriving DecidableEq, Repr

/-- The argument list `args` built by `Start`. -/
def startArgs (sp : StreamPusher) : List String :=
  [ "-re",
    "-i", sp.inputURL,
    "-f", "lavfi",
    "-i", "anullsrc=channel_layout=stereo:sample_rate=48000",
    "-c:v", "libx264",
    "-preset", "veryfast",
    "-tune", "zerolatency",
    "-x264-params", "nal-hrd=cbr",
    "-b:v", "1000k",
    "-maxrate", "1000k",
    "-bufsize", "1000k",
    "-g", "250",
    "-keyint_min", "25",
    "-r", "30",
    "-s", "640x480",
    "-c:a", "aac",
    "-b:a", "160k",
    "-ar", "48000",
    "-ac", "2",
    "-shortest",
    "-f", "flv",
    "-flvflags", "no_duration_filesize",
    sp.outputURL ]

/-- The command `Start` stores in `sp.cmd`: `exec.Command("ffmpeg", args...)` with
`Stdout = os.Stdout` and `Stderr = os.Stderr`. -/
def relayCmd (sp : StreamPusher) : Cmd :=
  { path := "ffmpeg", args := startArgs sp, stdoutInherited := true, stderrInherited := true }

/-- The method `Start`: builds the command, stores it in `sp.cmd` with both output
streams inherited from the supervisor, and launches it.  Returns the new pusher,
the error of `cmd.Start()` and the launch event. -/
def Start (sp : StreamPusher) (o : Outcome) : StreamPusher × Option GoError × Event :=
  let cmd : Cmd := relayCmd sp
  let sp1 := { sp with cmd := some cmd }
  match o with
  | .launchFail err => (sp1, some (.external err), .start sp.currentRetry cmd false)
  | .exited _ _ => (sp1, none, .start sp.currentRetry cmd true)

/-- The method `Wait`: `cmd.Wait()` when a command is present, `nil` otherwise. -/
def Wait (sp : StreamPusher) (o : Outcome) : Option GoError :=
  match sp.cmd with
  | some _ =>
    match o with
    | .exited _ (some msg) => some (.external msg)
    | _ => none
  | none => none

/-- The error returned after the loop of `StartWithRetry`. -/
def exhaustedError (sp : StreamPusher) : GoError :=
  .errorf ("达到最大重试次数 (" ++ toString sp.maxRetries ++ ")，停止重连")

/-- The method `StartWithRetry`.  Each pass of the loop takes the next outcome
from `outs`; the result is `none` when the loop asks for an attempt and `outs`
has no outcome left.  Otherwise it is the returned error, the pusher at return
and the events of the call, in order. -/
def StartWithRetry : StreamPusher → List Outcome → Option (Option GoError × StreamPusher × List Event)
  | sp, [] =>
    if sp.currentRetry ≤ sp.maxRetries then none
    else some (some (exhaustedError sp), sp, [])
  | sp, o :: rest =>
    if sp.currentRetry ≤ sp.maxRetries then
      let pre : List Event := if sp.currentRetry > 0 then [.sleep sp.retryDelay] else []
      match Start sp o with
      | (sp1, some _, ev) =>
        let sp2 := { sp1 with currentRetry := wrapInt (sp1.currentRetry + 1) }
        (StartWithRetry sp2 rest).map fun r => (r.1, r.2.1, pre ++ ev :: r.2.2)
      | (sp1, none, ev) =>
        match Wait sp1 o with
        | none => some (none, sp1, pre ++ [ev])
        | some waitErr =>
          let errorType := AnalyzeError sp1 1 waitErr.Error
          if errorType = ErrorTypeInputStream then
            some (some waitErr, sp1, pre ++ [ev])
          else
            let sp2 := { sp1 with currentRetry := wrapInt (sp1.currentRetry + 1) }
            (StartWithRetry sp2 rest).map fun r => (r.1, r.2.1, pre ++ ev :: r.2.2)
    else some (some (exhaustedError sp), sp, [])

/-- The number of calls of `Start` among the events. -/
def startCount (tr : List Event) : Nat :=
  tr.countP fun e => match e with
    | .start _ _ _ => true
    | _ => false

/-- The number of relay processes that came to run among the events. -/
def launchedCount (tr : List Event) : Nat :=
  tr.countP fun e => match e with
    | .start _ _ launched => launched
    | _ => false

/-- The values of `sp.currentRetry` at the calls of `Start`, in order. -/
def startRetries (tr : List Event) : List Int :=
  tr.filterMap fun e => match e with
    | .start retry _ _ => some retry
    | _ => none

/-- The commands of the calls of `Start`, in order. -/
def startCmds (tr : List Event) : List Cmd :=
  tr.filterMap fun e => match e with
    | .start _ cmd _ => some cmd
    | _ => none

/-- The delays slept among the events, in order. -/
def sleeps (tr : List Event) : List Int :=
  tr.filterMap fun e => match e with
    | .sleep d => some d
    | _ => none

/-- Whether the attempt brought a relay process to run. -/
def Outcome.launched : Outcome → Bool
  | .launchFail _ => false
  | .exited _ _ => true

/-- The attempt exits with an error whose text `AnalyzeError` places in a class
other than `ErrorTypeInputStream`. -/
def exitsNonSource (sp : StreamPusher) : Outcome → Bool
  | .exited _ (some msg) => decide (AnalyzeError sp 1 msg ≠ ErrorTypeInputStream)
  | _ => false

/-- The attempt fails with a class other than source: it fails to launch, or it
exits with an error whose text is outside `ErrorTypeInputStream`. -/
def retryable (sp : StreamPusher) : Outcome → Bool
  | .launchFail _ => true
  | o => exitsNonSource sp o

/-- A pusher as `main` builds it, for a camera stream and a push address. -/
def demoPusher : StreamPusher :=
  NewStreamPusher "http://192.168.201.124/stream" "rtmp://192.168.200.68/live/key"

/-- The same pusher with the largest `maxRetries` a Go `int` holds. -/
def maxIntPusher : StreamPusher :=
  { demoPusher with maxRetries := 2 ^ 63 - 1 }

/-- The invocation template as the specification lists it, for input locator `i`
and output locator `o`; `Start_fixed_arguments` compares it with the list `Start`
builds. -/
def templateArgs (i o : String) : List String :=
  ["-re", "-i", i, "-f", "lavfi", "-i", "anullsrc=channel_layout=stereo:sample_rate=48000",
   "-c:v", "libx264", "-preset", "veryfast", "-tune", "zerolatency", "-x264-params",
   "nal-hrd=cbr", "-b:v", "1000k", "-maxrate", "1000k", "-bufsize", "1000k", "-g", "250",
   "-keyint_min", "25", "-r", "30", "-s", "640x480", "-c:a", "aac", "-b:a", "160k", "-ar",
   "48000", "-ac", "2", "-shortest", "-f", "flv", "-flvflags", "no_duration_filesize", o]

/-! ## Preflight -/

/-- The fields of `*url.URL` the program reads. -/
structure URL where
  Scheme : String
  Host : String
  Path : String
  deriving DecidableEq, Repr

/-- The fields of `*http.Response` the program reads. -/
structure Response where
  StatusCode : Int
  Status : String
  deriving DecidableEq, Repr

/-- The library calls of the preflight: `url.Parse` and `http.Client.Head` (with
its timeout of ten seconds); the error case carries the text of the error. -/
structure World where
  parse : String → Except String URL
  head : String → Except String Response

/-- The method `CheckInputStream`. -/
def CheckInputStream (w : World) (sp : StreamPusher) : Option GoError :=
  match w.parse sp.inputURL with
  | .error err => some (.errorf ("输入流URL格式错误: " ++ err))
  | .ok parsedURL =>
    if parsedURL.Scheme = "http" ∨ parsedURL.Scheme = "https" then
      match w.head sp.inputURL with
      | .error err => some (.errorf ("无法连接到输入流: " ++ err))
      | .ok resp =>
        if resp.StatusCode ≥ 400 then
          some (.errorf ("输入流返回错误状态: " ++ toString resp.StatusCode ++ " " ++ resp.Status))
        else none
    else none

/-- The method `CheckRTMPOutput`. -/
def CheckRTMPOutput (w : World) (sp : StreamPusher) : Option GoError :=
  match w.parse sp.outputURL with
  | .error err => some (.errorf ("RTMP URL格式错误: " ++ err))
  | .ok parsedURL =>
    if parsedURL.Scheme ≠ "rtmp" then
      some (.errorf "不是有效的RTMP地址，应该以rtmp://开头")
    else none

/-! ## Entry point -/

/-- The part of `main` from the check of the output address to the end; `tr1` are
the events so far. -/
def mainFromOutputCheck (w : World) (pusher : StreamPusher) (checkOnly : Bool)
    (outs : List Outcome) (tr1 : List Event) : Option (Int × List Event) :=
  match CheckRTMPOutput w pusher with
  | some err =>
    some (1, tr1 ++ [Event.hints (PrintErrorSuggestion pusher ErrorTypeRTMPOutput err.Error)])
  | none =>
    if checkOnly then some (0, tr1)
    else
      match StartWithRetry pusher outs with
      | none => none
      | some (some err, sp, tr2) =>
        let errorType := AnalyzeError sp 1 err.Error
        some (1, tr1 ++ tr2 ++ [Event.hints (PrintErrorSuggestion sp errorType err.Error)])
      | some (none, _, tr2) => some (0, tr1 ++ tr2)

/-- The function `main`, from the parsed flags on: the exit code of the process
and its events, `none` when the retry loop asks for more attempts than `outs`
holds.  The goroutine that waits for a signal is not part of the model. -/
def main (w : World) (inputURL outputURL : String) (checkOnly : Bool)
    (outs : List Outcome) : Option (Int × List Event) :=
  if inputURL = "" ∨ outputURL = "" then some (1, [])
  else
    let pusher := NewStreamPusher inputURL outputURL
    match CheckInputStream w pusher with
    | some err =>
      let tr1 := [Event.hints (PrintErrorSuggestion pusher ErrorTypeInputStream err.Error)]
      if checkOnly then some (1, tr1)
      else mainFromOutputCheck w pusher checkOnly outs tr1
    | none => mainFromOutputCheck w pusher checkOnly outs []

/-- A world for the examples: `parse` agrees with `url.Parse` on the locators the
examples use and rejects the others, and the camera answers the probe with 502. -/
def demoWorld : World :=
  { parse := fun s =>
      if s = "http://192.168.201.124/stream" then
        .ok { Scheme := "http", Host := "192.168.201.124", Path := "/stream" }
      else if s = "rtmp://192.168.200.68/live/key" then
        .ok { Scheme := "rtmp", Host := "192.168.200.68", Path := "/live/key" }
      else if s = "http://192.168.200.68/live/key" then
        .ok { Scheme := "http", Host := "192.168.200.68", Path := "/live/key" }
      else if s = "192.168.200.68/live/key" then
        .ok { Scheme := "", Host := "", Path := "192.168.200.68/live/key" }
      else .error "missing protocol scheme"
    head := fun _ => .ok { StatusCode := 502, Status := "502 Bad Gateway" } }


/-! ## The substring search -/

theorem hasPrefix_iff (s p : List Char) : hasPrefix s p = true ↔ p <+: s := by
  induction p generalizing s with
  | nil => simp [hasPrefix]
  | cons a as ih =>
    cases s with
    | nil => simp [hasPrefix]
    | cons c cs =>
      simp only [hasPrefix, Bool.and_eq_true, beq_iff_eq, ih, List.cons_prefix_cons]
      constructor
      · rintro ⟨h1, h2⟩
        exact ⟨h1.symm, h2⟩
      · rintro ⟨h1, h2⟩
        exact ⟨h1.symm, h2⟩

theorem indexFrom_nonneg_iff (s substr : List Char) (i : Int) (hi : 0 ≤ i) :
    0 ≤ indexFrom s substr i ↔ substr <:+: s := by
  induction s generalizing i with
  | nil =>
    unfold indexFrom
    by_cases h : hasPrefix [] substr = true
    · have hp := (hasPrefix_iff [] substr).1 h
      simp only [h, if_true]
      exact ⟨fun _ => hp.isInfix, fun _ => hi⟩
    · have hp : ¬ substr <+: [] := fun hp => h ((hasPrefix_iff [] substr).2 hp)
      rw [if_neg h]
      constructor
      · intro h0
        simp at h0
      · intro hin
        exact absurd (List.prefix_nil.2 (List.infix_nil.1 hin)) hp
  | cons c cs ih =>
    unfold indexFrom
    by_cases h : hasPrefix (c :: cs) substr = true
    · have hp := (hasPrefix_iff (c :: cs) substr).1 h
      simp only [h, if_true]
      exact ⟨fun _ => hp.isInfix, fun _ => hi⟩
    · have hp : ¬ substr <+: c :: cs := fun hp => h ((hasPrefix_iff (c :: cs) substr).2 hp)
      rw [if_neg h, ih (i + 1) (by omega), List.infix_cons_iff]
      constructor
      · intro hin
        exact Or.inr hin
      · rintro (hpre | hin)
        · exact absurd hpre hp
        · exact hin

theorem Contains_iff (s substr : String) :
    Contains s substr = true ↔ substr.toList <:+: s.toList := by
  unfold Contains Index
  rw [decide_eq_true_iff]
  exact indexFrom_nonneg_iff s.toList substr.toList 0 (le_refl 0)

theorem anyMarker_iff (output : String) (markers : List String) :
    anyMarker output markers = true ↔ ∃ m ∈ markers, m.toList <:+: output.toList := by
  induction markers with
  | nil => simp [anyMarker]
  | cons m ms ih =>
    unfold anyMarker
    by_cases h : Contains output m = true
    · simp only [h, if_true, List.mem_cons, true_iff]
      exact ⟨m, Or.inl rfl, (Contains_iff output m).1 h⟩
    · have hn : ¬ m.toList <:+: output.toList := fun hin => h ((Contains_iff output m).2 hin)
      rw [if_neg h, ih]
      constructor
      · rintro ⟨x, hx, hin⟩
        exact ⟨x, List.mem_cons_of_mem m hx, hin⟩
      · rintro ⟨x, hx, hin⟩
        rcases List.mem_cons.1 hx with hx | hx
        · exact absurd (hx ▸ hin) hn
        · exact ⟨x, hx, hin⟩

/-! ## The classifier -/

/-- C1: `AnalyzeError` is a first-match classifier with fixed priority.  For every
receiver, exit code and text the result is the source class when the text has a
source marker as a substring, otherwise the destination class when it has a
destination marker, otherwise the format class when it has a format marker,
otherwise the unknown class; the result depends on the text alone; the text
`Failed to connect: Connection refused` is source class and the lower-case
`connection refused` is unknown. -/
theorem AnalyzeError_first_match (sp : StreamPusher) (exitCode : Int) (output : String) :
    AnalyzeError sp exitCode output =
        (if ∃ m ∈ inputErrors, m.toList <:+: output.toList then ErrorTypeInputStream
         else if ∃ m ∈ rtmpErrors, m.toList <:+: output.toList then ErrorTypeRTMPOutput
         else if ∃ m ∈ encodingErrors, m.toList <:+: output.toList then ErrorTypeEncoding
         else ErrorTypeUnknown)
      ∧ (∀ (sp2 : StreamPusher) (exitCode2 : Int),
          AnalyzeError sp2 exitCode2 output = AnalyzeError sp exitCode output)
      ∧ AnalyzeError sp exitCode "Failed to connect: Connection refused" = ErrorTypeInputStream
      ∧ AnalyzeError sp exitCode "connection refused" = ErrorTypeUnknown := by
  refine ⟨?_, fun _ _ => rfl, ?_, ?_⟩
  · unfold AnalyzeError
    simp only [← anyMarker_iff]
  · unfold AnalyzeError
    decide
  · unfold AnalyzeError
    decide


/-! ## The retry loop -/

theorem wrapInt_eq (x : Int) (hlo : -2 ^ 63 ≤ x) (hhi : x < 2 ^ 63) : wrapInt x = x := by
  unfold wrapInt
  rw [Int.emod_eq_of_lt (by omega) (by omega)]
  omega

theorem wrapInt_le (x : Int) : wrapInt x ≤ 2 ^ 63 - 1 := by
  unfold wrapInt
  have h := Int.emod_lt_of_pos (x + 2 ^ 63) (show (0 : Int) < 2 ^ 64 by norm_num)
  omega

theorem retryable_receiver (sp sp2 : StreamPusher) (o : Outcome) :
    retryable sp2 o = retryable sp o := by
  cases o with
  | launchFail err => rfl
  | exited diag waitErr => cases waitErr <;> rfl

/-- One failed attempt of a class other than source: the loop goes round again
with the counter incremented as a Go `int`. -/
theorem StartWithRetry_step_wrap (sp : StreamPusher) (o : Outcome) (rest : List Outcome)
    (hle : sp.currentRetry ≤ sp.maxRetries) (ho : retryable sp o = true) :
    StartWithRetry sp (o :: rest) =
      (StartWithRetry
        { sp with cmd := some (relayCmd sp), currentRetry := wrapInt (sp.currentRetry + 1) }
        rest).map fun r =>
          (r.1, r.2.1, (if sp.currentRetry > 0 then [Event.sleep sp.retryDelay] else []) ++
            Event.start sp.currentRetry (relayCmd sp) o.launched :: r.2.2) := by
  cases o with
  | launchFail err =>
    rw [StartWithRetry]
    simp only [hle, if_true, Start, Outcome.launched]
  | exited diag waitErr =>
    cases waitErr with
    | none => simp [retryable, exitsNonSource] at ho
    | some msg =>
      have hc : AnalyzeError sp 1 msg ≠ ErrorTypeInputStream := by
        simpa [retryable, exitsNonSource] using ho
      have hc2 : AnalyzeError { sp with cmd := some (relayCmd sp) } 1 msg ≠ ErrorTypeInputStream := hc
      rw [StartWithRetry]
      simp only [hle, if_true, Start, Wait, Outcome.launched, GoError.Error, if_neg hc2]

/-- One failed attempt of a class other than source, the counter away from the
end of the `int` range: the loop goes round again with the counter one higher. -/
theorem StartWithRetry_step (sp : StreamPusher) (o : Outcome) (rest : List Outcome)
    (hlo : 0 ≤ sp.currentRetry) (hle : sp.currentRetry ≤ sp.maxRetries)
    (hhi : sp.currentRetry + 1 < 2 ^ 63) (ho : retryable sp o = true) :
    StartWithRetry sp (o :: rest) =
      (StartWithRetry { sp with cmd := some (relayCmd sp), currentRetry := sp.currentRetry + 1 }
        rest).map fun r =>
          (r.1, r.2.1, (if sp.currentRetry > 0 then [Event.sleep sp.retryDelay] else []) ++
            Event.start sp.currentRetry (relayCmd sp) o.launched :: r.2.2) := by
  rw [StartWithRetry_step_wrap sp o rest hle ho, wrapInt_eq _ (by omega) hhi]

/-- With `maxRetries` at the top of the `int` range the guard of the loop holds
for every counter, so a run of failing attempts never reaches the return. -/
theorem StartWithRetry_no_return (outs : List Outcome) :
    ∀ (sp : StreamPusher), sp.maxRetries = 2 ^ 63 - 1 → sp.currentRetry ≤ 2 ^ 63 - 1 →
      (∀ o ∈ outs, retryable sp o = true) → StartWithRetry sp outs = none := by
  induction outs with
  | nil =>
    intro sp hm hc _
    rw [StartWithRetry, if_pos (by omega)]
  | cons o rest ih =>
    intro sp hm hc hret
    rw [StartWithRetry_step_wrap sp o rest (by omega) (hret o (List.mem_cons_self o rest)),
      ih { sp with cmd := some (relayCmd sp), currentRetry := wrapInt (sp.currentRetry + 1) }
        hm (wrapInt_le _) (fun x hx => by
          rw [retryable_receiver sp]
          exact hret x (List.mem_cons_of_mem o hx))]
    rfl

/-- The loop returns at once when the counter is above the maximum. -/
theorem StartWithRetry_exhausted (sp : StreamPusher) (outs : List Outcome)
    (h : sp.maxRetries < sp.currentRetry) :
    StartWithRetry sp outs = some (some (exhaustedError sp), sp, []) := by
  have hn : ¬ sp.currentRetry ≤ sp.maxRetries := by omega
  cases outs with
  | nil => rw [StartWithRetry, if_neg hn]
  | cons o rest => rw [StartWithRetry, if_neg hn]

/-- An attempt that exits cleanly ends the loop with `nil`. -/
theorem StartWithRetry_clean (sp : StreamPusher) (diag : String) (rest : List Outcome)
    (hle : sp.currentRetry ≤ sp.maxRetries) :
    StartWithRetry sp (Outcome.exited diag none :: rest) =
      some (none, { sp with cmd := some (relayCmd sp) },
        (if sp.currentRetry > 0 then [Event.sleep sp.retryDelay] else []) ++
          [Event.start sp.currentRetry (relayCmd sp) true]) := by
  rw [StartWithRetry]
  simp only [hle, if_true, Start, Wait]

/-- An attempt that exits with a source-class error ends the loop with that error. -/
theorem StartWithRetry_source (sp : StreamPusher) (diag msg : String) (rest : List Outcome)
    (hle : sp.currentRetry ≤ sp.maxRetries)
    (hsrc : AnalyzeError sp 1 msg = ErrorTypeInputStream) :
    StartWithRetry sp (Outcome.exited diag (some msg) :: rest) =
      some (some (GoError.external msg), { sp with cmd := some (relayCmd sp) },
        (if sp.currentRetry > 0 then [Event.sleep sp.retryDelay] else []) ++
          [Event.start sp.currentRetry (relayCmd sp) true]) := by
  have hc2 : AnalyzeError { sp with cmd := some (relayCmd sp) } 1 msg = ErrorTypeInputStream := hsrc
  rw [StartWithRetry]
  simp only [hle, if_true, Start, Wait, GoError.Error, if_pos hc2]

/-- A run of failed attempts of classes other than source, from a counter of at
least one: every attempt is preceded by one delay and raises the counter by one. -/
theorem StartWithRetry_fails (fails : List Outcome) :
    ∀ (sp : StreamPusher), 1 ≤ sp.currentRetry →
      sp.currentRetry + fails.length ≤ sp.maxRetries + 1 →
      sp.currentRetry + fails.length < 2 ^ 63 →
      (∀ o ∈ fails, retryable sp o = true) →
      ∃ (sp1 : StreamPusher) (trF : List Event),
        (∀ rest, StartWithRetry sp (fails ++ rest) =
          (StartWithRetry sp1 rest).map fun r => (r.1, r.2.1, trF ++ r.2.2))
        ∧ sp1.currentRetry = sp.currentRetry + fails.length
        ∧ sp1.maxRetries = sp.maxRetries
        ∧ sp1.retryDelay = sp.retryDelay
        ∧ relayCmd sp1 = relayCmd sp
        ∧ startCount trF = fails.length
        ∧ launchedCount trF = fails.countP Outcome.launched
        ∧ sleeps trF = List.replicate fails.length sp.retryDelay
        ∧ startRetries trF = (List.range fails.length).map (fun (i : Nat) => sp.currentRetry + (i : Int))
        ∧ startCmds trF = List.replicate fails.length (relayCmd sp)
        ∧ ((∀ o ∈ fails, o.launched = true) →
            trF = (List.range fails.length).flatMap fun (i : Nat) =>
              [Event.sleep sp.retryDelay, Event.start (sp.currentRetry + (i : Int)) (relayCmd sp) true]) := by
  induction fails with
  | nil =>
    intro sp _ _ _ _
    refine ⟨sp, [], ?_, by simp, rfl, rfl, rfl, rfl, rfl, rfl, rfl, rfl, fun _ => rfl⟩
    intro rest
    rw [List.nil_append]
    generalize StartWithRetry sp rest = x
    cases x <;> rfl
  | cons f fs ih =>
    intro sp h1 hle hhi hret
    have hlen : ((f :: fs).length : Int) = fs.length + 1 := by simp
    rw [hlen] at hle hhi
    have hf : retryable sp f = true := hret f (List.mem_cons_self f fs)
    obtain ⟨sp1, trF, hrun, hcr, hmax, hdelay, hcmd, hsc, hlc, hsl, hsr, hcm, hex⟩ :=
      ih { sp with cmd := some (relayCmd sp), currentRetry := sp.currentRetry + 1 }
        (by show 1 ≤ sp.currentRetry + 1; omega)
        (by show sp.currentRetry + 1 + (fs.length : Int) ≤ sp.maxRetries + 1; omega)
        (by show sp.currentRetry + 1 + (fs.length : Int) < 2 ^ 63; omega)
        (fun o ho => by
          rw [retryable_receiver sp]
          exact hret o (List.mem_cons_of_mem f ho))
    have hrc : relayCmd { sp with cmd := some (relayCmd sp), currentRetry := sp.currentRetry + 1 }
        = relayCmd sp := rfl
    rw [hrc] at hcmd hcm hex
    dsimp only at hcr hmax hdelay hsl hsr hex
    have hpos : sp.currentRetry > 0 := by omega
    refine ⟨sp1, [Event.sleep sp.retryDelay, Event.start sp.currentRetry (relayCmd sp) f.launched] ++ trF,
      ?_, ?_, hmax, hdelay, hcmd, ?_, ?_, ?_, ?_, ?_, ?_⟩
    · intro rest
      rw [List.cons_append, StartWithRetry_step sp f (fs ++ rest) (by omega) (by omega) (by omega) hf,
        hrun rest, Option.map_map, if_pos hpos]
      congr 1
    · rw [hcr, hlen]
      omega
    · simp only [startCount] at hsc ⊢
      simp [List.countP_cons, hsc]
    · simp only [launchedCount] at hlc ⊢
      simp [List.countP_cons, hlc]
    · simp only [sleeps] at hsl ⊢
      simp [hsl, List.replicate_succ]
    · simp only [startRetries] at hsr ⊢
      simp [hsr, List.range_succ_eq_map]
      intro a _
      omega
    · simp only [startCmds] at hcm ⊢
      simp [hcm, List.replicate_succ]
    · intro hall
      have hfl : f.launched = true := hall f (List.mem_cons_self f fs)
      rw [hex (fun o ho => hall o (List.mem_cons_of_mem f ho)), hfl]
      simp [List.range_succ_eq_map, List.flatMap_cons, List.flatMap_map]
      congr 1
      funext i
      have hi : sp.currentRetry + 1 + (i : Int) = sp.currentRetry + ((i : Int) + 1) := by omega
      rw [hi]

/-- A run of failed attempts of classes other than source, from a counter of
zero: no delay before the first attempt, one before every later one. -/
theorem StartWithRetry_fails_from_zero (sp : StreamPusher) (fails : List Outcome)
    (h0 : sp.currentRetry = 0)
    (hle : (fails.length : Int) ≤ sp.maxRetries + 1)
    (hhi : (fails.length : Int) < 2 ^ 63)
    (hret : ∀ o ∈ fails, retryable sp o = true) :
    ∃ (sp1 : StreamPusher) (trF : List Event),
      (∀ rest, StartWithRetry sp (fails ++ rest) =
        (StartWithRetry sp1 rest).map fun r => (r.1, r.2.1, trF ++ r.2.2))
      ∧ sp1.currentRetry = fails.length
      ∧ sp1.maxRetries = sp.maxRetries
      ∧ sp1.retryDelay = sp.retryDelay
      ∧ relayCmd sp1 = relayCmd sp
      ∧ startCount trF = fails.length
      ∧ launchedCount trF = fails.countP Outcome.launched
      ∧ sleeps trF = List.replicate (fails.length - 1) sp.retryDelay
      ∧ startRetries trF = (List.range fails.length).map (fun (i : Nat) => (i : Int))
      ∧ startCmds trF = List.replicate fails.length (relayCmd sp)
      ∧ (fails = [] → trF = [])
      ∧ ((∀ o ∈ fails, o.launched = true) → fails ≠ [] →
          trF = Event.start 0 (relayCmd sp) true ::
            (List.range (fails.length - 1)).flatMap fun (i : Nat) =>
              [Event.sleep sp.retryDelay, Event.start ((i : Int) + 1) (relayCmd sp) true]) := by
  cases fails with
  | nil =>
    refine ⟨sp, [], ?_, by simp [h0], rfl, rfl, rfl, rfl, rfl, rfl, rfl, rfl, fun _ => rfl,
      fun _ h => absurd rfl h⟩
    intro rest
    rw [List.nil_append]
    generalize StartWithRetry sp rest = x
    cases x <;> rfl
  | cons f fs =>
    have hlen : ((f :: fs).length : Int) = fs.length + 1 := by simp
    rw [hlen] at hle hhi
    have hf : retryable sp f = true := hret f (List.mem_cons_self f fs)
    obtain ⟨sp1, trF, hrun, hcr, hmax, hdelay, hcmd, hsc, hlc, hsl, hsr, hcm, hex⟩ :=
      StartWithRetry_fails fs
        { sp with cmd := some (relayCmd sp), currentRetry := sp.currentRetry + 1 }
        (by show 1 ≤ sp.currentRetry + 1; omega)
        (by show sp.currentRetry + 1 + (fs.length : Int) ≤ sp.maxRetries + 1; omega)
        (by show sp.currentRetry + 1 + (fs.length : Int) < 2 ^ 63; omega)
        (fun o ho => by
          rw [retryable_receiver sp]
          exact hret o (List.mem_cons_of_mem f ho))
    have hrc : relayCmd { sp with cmd := some (relayCmd sp), currentRetry := sp.currentRetry + 1 }
        = relayCmd sp := rfl
    rw [hrc] at hcmd hcm hex
    dsimp only at hcr hmax hdelay hsl hsr hex
    rw [h0] at hcr hsr hex
    have hnpos : ¬ sp.currentRetry > 0 := by omega
    refine ⟨sp1, Event.start 0 (relayCmd sp) f.launched :: trF,
      ?_, ?_, hmax, hdelay, hcmd, ?_, ?_, ?_, ?_, ?_, fun h => absurd h (List.cons_ne_nil f fs), ?_⟩
    · intro rest
      rw [List.cons_append, StartWithRetry_step sp f (fs ++ rest) (by omega) (by omega) (by omega) hf,
        hrun rest, Option.map_map, if_neg hnpos, h0]
      congr 1
    · rw [hcr, hlen]
      omega
    · simp only [startCount] at hsc ⊢
      simp [List.countP_cons, hsc]
    · simp only [launchedCount] at hlc ⊢
      simp [List.countP_cons, hlc]
    · simp only [sleeps] at hsl ⊢
      simp [hsl]
    · simp only [startRetries] at hsr ⊢
      simp [hsr, List.range_succ_eq_map]
      intro a _
      omega
    · simp only [startCmds] at hcm ⊢
      simp [hcm, List.replicate_succ]
    · intro hall _
      have hfl : f.launched = true := hall f (List.mem_cons_self f fs)
      rw [hex (fun o ho => hall o (List.mem_cons_of_mem f ho)), hfl]
      simp only [List.length_cons, Nat.add_sub_cancel, List.cons.injEq, true_and]
      congr 1
      funext i
      have hi : (0 : Int) + 1 + (i : Int) = (i : Int) + 1 := by omega
      rw [hi]

theorem exitsNonSource_retryable (sp : StreamPusher) (o : Outcome)
    (h : exitsNonSource sp o = true) : retryable sp o = true ∧ o.launched = true := by
  cases o with
  | launchFail err => simp [exitsNonSource] at h
  | exited diag waitErr => exact ⟨h, rfl⟩

/-- The counts of a trace that ends with the attempt made at counter `n`. -/
theorem last_attempt_counts (trF : List Event) (n m : Nat) (d : Int) (cmd : Cmd)
    (hsc : startCount trF = n) (hlc : launchedCount trF = m)
    (hsl : sleeps trF = List.replicate (n - 1) d)
    (hsr : startRetries trF = (List.range n).map (fun (i : Nat) => (i : Int)))
    (hcm : startCmds trF = List.replicate n cmd) :
    startCount (trF ++ ((if (n : Int) > 0 then [Event.sleep d] else []) ++
        [Event.start n cmd true])) = n + 1
      ∧ launchedCount (trF ++ ((if (n : Int) > 0 then [Event.sleep d] else []) ++
        [Event.start n cmd true])) = m + 1
      ∧ sleeps (trF ++ ((if (n : Int) > 0 then [Event.sleep d] else []) ++
        [Event.start n cmd true])) = List.replicate n d
      ∧ startRetries (trF ++ ((if (n : Int) > 0 then [Event.sleep d] else []) ++
        [Event.start n cmd true])) = (List.range (n + 1)).map (fun (i : Nat) => (i : Int))
      ∧ startCmds (trF ++ ((if (n : Int) > 0 then [Event.sleep d] else []) ++
        [Event.start n cmd true])) = List.replicate (n + 1) cmd := by
  simp only [startCount, launchedCount, sleeps, startRetries, startCmds] at *
  cases n with
  | zero =>
    simp [hsc, hlc, hsl, hsr, hcm]
    rfl
  | succ k =>
    have hk : ((k + 1 : Nat) : Int) > 0 := by omega
    simp only [hk, if_true, List.countP_append, List.filterMap_append, hsc, hlc, hsl, hsr, hcm]
    refine ⟨by simp, by simp, ?_, ?_, ?_⟩
    · simp [List.replicate_succ']
    · simp [List.range_succ (k + 1)]
    · simp [List.replicate_succ' (k + 1)]

/-- C2, the code at the failing input: `maxRetries = 5`, and every relay process
fails on its input, writing a diagnostic text with `Connection refused`, which
`AnalyzeError` places in the source class, and exiting with status 1.  The loop
does not stop at the first attempt: it classifies the text of the error of
`Wait`, `exit status 1`, as unknown each time, calls `Start` six times with five
delays between, raises `currentRetry` to 6 and returns the exhaustion error, not
the error of the first attempt. -/
theorem StartWithRetry_retries_source_failure :
    AnalyzeError demoPusher 1
        "[http @ 0x55d0] Connection to tcp://192.168.201.124:80 failed: Connection refused"
      = ErrorTypeInputStream
    ∧ (StartWithRetry demoPusher
        (List.replicate 6 (Outcome.exited
          "[http @ 0x55d0] Connection to tcp://192.168.201.124:80 failed: Connection refused"
          (some "exit status 1")))).map
        (fun r => (r.1, r.2.1.currentRetry, startCount r.2.2, launchedCount r.2.2,
          sleeps r.2.2))
      = some (some (exhaustedError demoPusher), 6, 6, 6,
          [5000000000, 5000000000, 5000000000, 5000000000, 5000000000]) := by
  decide

/-- C3, amended: bounded retries.  From a counter of zero and with `maxRetries + 1`
representable as a Go `int`, when the first `maxRetries + 1` attempts each fail to
launch or exit with an error of a class other than source, `StartWithRetry`
returns the exhaustion error, which is no attempt's own error, whatever outcomes
would follow: `Start` was called exactly `maxRetries + 1` times, at the counter
values `0, 1, ..., maxRetries` in this order, a launch failure counting like an
exit with an error, and the counter ends at `maxRetries + 1`. -/
theorem StartWithRetry_bounded (sp : StreamPusher) (fails : List Outcome)
    (h0 : sp.currentRetry = 0) (hmax : sp.maxRetries + 1 < 2 ^ 63)
    (hlen : (fails.length : Int) = sp.maxRetries + 1)
    (hret : ∀ o ∈ fails, retryable sp o = true) :
    ∃ (sp1 : StreamPusher) (tr : List Event),
      (∀ rest, StartWithRetry sp (fails ++ rest) = some (some (exhaustedError sp), sp1, tr))
      ∧ (∀ msg, exhaustedError sp ≠ GoError.external msg)
      ∧ sp1.currentRetry = sp.maxRetries + 1
      ∧ (startCount tr : Int) = sp.maxRetries + 1
      ∧ startRetries tr = (List.range fails.length).map (fun (i : Nat) => (i : Int))
      ∧ launchedCount tr = fails.countP Outcome.launched
      ∧ sleeps tr = List.replicate (fails.length - 1) sp.retryDelay := by
  obtain ⟨sp1, trF, hrun, hcr, hmx, _, _, hsc, hlc, hsl, hsr, _, _, _⟩ :=
    StartWithRetry_fails_from_zero sp fails h0 (by omega) (by omega) hret
  have hgt : sp1.maxRetries < sp1.currentRetry := by rw [hcr, hmx]; omega
  have hex : exhaustedError sp1 = exhaustedError sp := by
    unfold exhaustedError
    rw [hmx]
  refine ⟨sp1, trF, ?_, ?_, ?_, ?_, hsr, hlc, hsl⟩
  · intro rest
    rw [hrun, StartWithRetry_exhausted sp1 rest hgt, hex]
    simp
  · intro msg h
    cases h
  · rw [hcr, hlen]
  · rw [hsc, hlen]

/-- Witness of C3: `maxRetries = 5`, six failing attempts of both kinds. -/
theorem StartWithRetry_bounded_witness :
    (∀ o ∈ [Outcome.launchFail "exec: not found", Outcome.exited "" (some "exit status 1"),
        Outcome.exited "" (some "Broken pipe"), Outcome.launchFail "permission denied",
        Outcome.exited "" (some "Conversion failed"), Outcome.exited "" (some "signal: killed")],
      retryable demoPusher o = true) ∧
    ∃ (sp1 : StreamPusher) (tr : List Event),
      (∀ rest, StartWithRetry demoPusher
        ([Outcome.launchFail "exec: not found", Outcome.exited "" (some "exit status 1"),
          Outcome.exited "" (some "Broken pipe"), Outcome.launchFail "permission denied",
          Outcome.exited "" (some "Conversion failed"), Outcome.exited "" (some "signal: killed")]
          ++ rest) = some (some (exhaustedError demoPusher), sp1, tr))
      ∧ (∀ msg, exhaustedError demoPusher ≠ GoError.external msg)
      ∧ sp1.currentRetry = 6
      ∧ (startCount tr : Int) = 6
      ∧ startRetries tr = [0, 1, 2, 3, 4, 5]
      ∧ launchedCount tr = 4
      ∧ sleeps tr = List.replicate 5 demoPusher.retryDelay :=
  ⟨by decide,
    StartWithRetry_bounded demoPusher
      [Outcome.launchFail "exec: not found", Outcome.exited "" (some "exit status 1"),
        Outcome.exited "" (some "Broken pipe"), Outcome.launchFail "permission denied",
        Outcome.exited "" (some "Conversion failed"), Outcome.exited "" (some "signal: killed")]
      rfl (by decide) (by decide) (by decide)⟩

/-- C4: recovery after transient failures.  From a counter of zero, when the first
`k = fails.length ≤ maxRetries` attempts each exit with an error of a class other
than source and attempt `k + 1` exits cleanly, `StartWithRetry` returns `nil`:
`k + 1` processes were launched, `k` delays of `retryDelay` were slept, none
before the first attempt and one before each relaunch, and `currentRetry = k`. -/
theorem StartWithRetry_recovers (sp : StreamPusher) (fails : List Outcome) (diag : String)
    (h0 : sp.currentRetry = 0) (hmax : sp.maxRetries < 2 ^ 63)
    (hk : (fails.length : Int) ≤ sp.maxRetries)
    (hfails : ∀ o ∈ fails, exitsNonSource sp o = true) :
    ∃ (sp1 : StreamPusher) (tr : List Event),
      (∀ rest, StartWithRetry sp (fails ++ Outcome.exited diag none :: rest) =
        some (none, sp1, tr))
      ∧ sp1.currentRetry = fails.length
      ∧ startCount tr = fails.length + 1
      ∧ launchedCount tr = fails.length + 1
      ∧ sleeps tr = List.replicate fails.length sp.retryDelay
      ∧ tr = Event.start 0 (relayCmd sp) true ::
          (List.range fails.length).flatMap fun (i : Nat) =>
            [Event.sleep sp.retryDelay, Event.start ((i : Int) + 1) (relayCmd sp) true] := by
  have hall : ∀ o ∈ fails, o.launched = true := fun o ho =>
    (exitsNonSource_retryable sp o (hfails o ho)).2
  obtain ⟨sp1, trF, hrun, hcr, hmx, hdelay, hcmd, hsc, hlc, hsl, hsr, hcm, hnil, hex⟩ :=
    StartWithRetry_fails_from_zero sp fails h0 (by omega) (by omega)
      (fun o ho => (exitsNonSource_retryable sp o (hfails o ho)).1)
  have hle : sp1.currentRetry ≤ sp1.maxRetries := by rw [hcr, hmx]; omega
  have hcount : fails.countP Outcome.launched = fails.length :=
    List.countP_eq_length.2 hall
  rw [hcount] at hlc
  obtain ⟨c1, c2, c3, _, _⟩ :=
    last_attempt_counts trF fails.length _ sp.retryDelay (relayCmd sp) hsc hlc hsl hsr hcm
  refine ⟨{ sp1 with cmd := some (relayCmd sp1) }, trF ++
    ((if (fails.length : Int) > 0 then [Event.sleep sp.retryDelay] else []) ++
      [Event.start fails.length (relayCmd sp) true]), ?_, hcr, c1, c2, c3, ?_⟩
  · intro rest
    rw [hrun, StartWithRetry_clean sp1 diag rest hle, hcr, hdelay, hcmd]
    rfl
  · cases hf : fails with
    | nil =>
      rw [hnil hf]
      rfl
    | cons f fs =>
      have hne : fails ≠ [] := by rw [hf]; simp
      rw [hex hall hne, hf]
      have hpos : ((f :: fs).length : Int) > 0 := by simp only [List.length_cons]; omega
      rw [if_pos hpos]
      simp [List.range_succ, List.flatMap_append]

/-- Witness of C4: three `Broken pipe` failures, then a clean exit, with
`maxRetries = 5`: four attempts and three delays. -/
theorem StartWithRetry_recovers_witness :
    (∀ o ∈ [Outcome.exited "" (some "Broken pipe"), Outcome.exited "" (some "Broken pipe"),
        Outcome.exited "" (some "Broken pipe")], exitsNonSource demoPusher o = true) ∧
    ∃ (sp1 : StreamPusher) (tr : List Event),
      (∀ rest, StartWithRetry demoPusher
        ([Outcome.exited "" (some "Broken pipe"), Outcome.exited "" (some "Broken pipe"),
          Outcome.exited "" (some "Broken pipe")] ++ Outcome.exited "" none :: rest) =
        some (none, sp1, tr))
      ∧ sp1.currentRetry = 3
      ∧ startCount tr = 4
      ∧ launchedCount tr = 4
      ∧ sleeps tr = [5000000000, 5000000000, 5000000000]
      ∧ tr = Event.start 0 (relayCmd demoPusher) true ::
          (List.range 3).flatMap fun (i : Nat) =>
            [Event.sleep demoPusher.retryDelay,
              Event.start ((i : Int) + 1) (relayCmd demoPusher) true] :=
  ⟨by decide,
    StartWithRetry_recovers demoPusher
      [Outcome.exited "" (some "Broken pipe"), Outcome.exited "" (some "Broken pipe"),
        Outcome.exited "" (some "Broken pipe")] ""
      rfl (by decide) (by decide) (by decide)⟩

/-- Counterexample to C3 as stated: with `maxRetries = 2 ^ 63 - 1`, which is at
least zero, and every attempt failing to launch, no number of attempts brings
`StartWithRetry` to return. -/
theorem StartWithRetry_unbounded_at_max_int :
    ¬ ∃ n : Nat, (StartWithRetry maxIntPusher
      (List.replicate n (Outcome.launchFail "exec: not found"))).isSome = true := by
  rintro ⟨n, hn⟩
  rw [StartWithRetry_no_return _ maxIntPusher rfl (by decide) (fun o ho => by
    rw [List.eq_of_mem_replicate ho]
    rfl)] at hn
  simp at hn

/-- C6, the code at the failing input: the first attempt writes a diagnostic text
with `Connection refused`, which `AnalyzeError` places in the source class, and
exits with status 1.  `StartWithRetry` classifies the text of the error of
`Wait`, `exit status 1`, as unknown, sleeps and launches a second attempt. -/
theorem StartWithRetry_classifies_wait_error :
    AnalyzeError demoPusher 1
        "[tcp @ 0x5581] Connection to tcp://192.168.201.124:80 failed: Connection refused"
      = ErrorTypeInputStream
    ∧ AnalyzeError demoPusher 1 "exit status 1" = ErrorTypeUnknown
    ∧ (StartWithRetry demoPusher
        [ Outcome.exited
            "[tcp @ 0x5581] Connection to tcp://192.168.201.124:80 failed: Connection refused"
            (some "exit status 1"),
          Outcome.exited "" none ]).map
        (fun r => (r.1, r.2.1.currentRetry, startCount r.2.2, sleeps r.2.2))
      = some (none, 1, 2, [5000000000]) := by
  decide

/-! ## The invocation -/

/-- Every call of `Start` in a run of `StartWithRetry` carries the command built
from the two locators of the pusher the run began with. -/
theorem StartWithRetry_cmds (outs : List Outcome) :
    ∀ (sp : StreamPusher) (r : Option GoError × StreamPusher × List Event),
      StartWithRetry sp outs = some r → ∀ c ∈ startCmds r.2.2, c = relayCmd sp := by
  induction outs with
  | nil =>
    intro sp r h c hc
    by_cases hle : sp.currentRetry ≤ sp.maxRetries
    · rw [StartWithRetry, if_pos hle] at h
      cases h
    · rw [StartWithRetry_exhausted sp [] (by omega)] at h
      cases h
      simp [startCmds] at hc
  | cons o rest ih =>
    intro sp r h c hc
    by_cases hle : sp.currentRetry ≤ sp.maxRetries
    · have hcont : ∀ (l : Bool), retryable sp o = true →
          StartWithRetry sp (o :: rest) = some r → o.launched = l → c = relayCmd sp := by
        intro l hret h hl
        rw [StartWithRetry_step_wrap sp o rest hle hret] at h
        cases hr : StartWithRetry
          { sp with cmd := some (relayCmd sp), currentRetry := wrapInt (sp.currentRetry + 1) }
          rest with
        | none => rw [hr] at h; cases h
        | some r1 =>
          rw [hr] at h
          cases h
          have ih1 := ih _ r1 hr c
          simp only [startCmds] at hc ih1
          by_cases hpos : sp.currentRetry > 0
          · simp only [if_pos hpos, List.cons_append, List.nil_append, List.filterMap_cons,
              List.mem_cons] at hc
            rcases hc with hc | hc
            · exact hc
            · exact ih1 hc
          · simp only [if_neg hpos, List.nil_append, List.filterMap_cons, List.mem_cons] at hc
            rcases hc with hc | hc
            · exact hc
            · exact ih1 hc
      have hlast : ∀ tr : List Event,
          tr = (if sp.currentRetry > 0 then [Event.sleep sp.retryDelay] else []) ++
            [Event.start sp.currentRetry (relayCmd sp) true] →
          c ∈ startCmds tr → c = relayCmd sp := by
        intro tr htr hc
        rw [htr] at hc
        by_cases hpos : sp.currentRetry > 0
        · simpa [startCmds, if_pos hpos] using hc
        · simpa [startCmds, if_neg hpos] using hc
      cases o with
      | launchFail err => exact hcont false rfl h rfl
      | exited diag waitErr =>
        cases waitErr with
        | none =>
          rw [StartWithRetry_clean sp diag rest hle] at h
          cases h
          exact hlast _ rfl hc
        | some msg =>
          by_cases hsrc : AnalyzeError sp 1 msg = ErrorTypeInputStream
          · rw [StartWithRetry_source sp diag msg rest hle hsrc] at h
            cases h
            exact hlast _ rfl hc
          · exact hcont true (by simpa [retryable, exitsNonSource] using hsrc) h rfl
    · rw [StartWithRetry_exhausted sp (o :: rest) (by omega)] at h
      cases h
      simp [startCmds] at hc

/-- C9: fixed invocation template.  For every pusher, the argument list `Start`
builds is the 43-element template at the pusher's two locators and nothing else
of the state: it begins with `-re`, has the input locator third and the output
locator last; `Start` stores it in `sp.cmd` for `ffmpeg`; and every call of
`Start` in a run of `StartWithRetry` uses this same list. -/
theorem Start_fixed_arguments (sp : StreamPusher) (o : Outcome) (outs : List Outcome) :
    startArgs sp = templateArgs sp.inputURL sp.outputURL
      ∧ (startArgs sp).length = 43
      ∧ (startArgs sp).head? = some "-re"
      ∧ (startArgs sp)[2]? = some sp.inputURL
      ∧ (startArgs sp).getLast? = some sp.outputURL
      ∧ (Start sp o).1.cmd = some
          { path := "ffmpeg", args := templateArgs sp.inputURL sp.outputURL,
            stdoutInherited := true, stderrInherited := true }
      ∧ (Start sp o).2.2 = Event.start sp.currentRetry
          { path := "ffmpeg", args := templateArgs sp.inputURL sp.outputURL,
            stdoutInherited := true, stderrInherited := true } o.launched
      ∧ ∀ r, StartWithRetry sp outs = some r →
          ∀ c ∈ startCmds r.2.2, c.path = "ffmpeg" ∧
            c.args = templateArgs sp.inputURL sp.outputURL := by
  refine ⟨rfl, rfl, rfl, rfl, rfl, ?_, ?_, ?_⟩
  · cases o <;> rfl
  · cases o <;> rfl
  · intro r h c hc
    rw [StartWithRetry_cmds outs sp r h c hc]
    exact ⟨rfl, rfl⟩

/-- Witness of C9: a run of three attempts, each with the template at the two
locators of the pusher. -/
theorem Start_fixed_arguments_witness :
    startCmds [Event.start 0 (relayCmd demoPusher) false,
        Event.sleep 5000000000, Event.start 1 (relayCmd demoPusher) true,
        Event.sleep 5000000000, Event.start 2 (relayCmd demoPusher) true]
      = [relayCmd demoPusher, relayCmd demoPusher, relayCmd demoPusher]
    ∧ ∀ c ∈ startCmds [Event.start 0 (relayCmd demoPusher) false,
        Event.sleep 5000000000, Event.start 1 (relayCmd demoPusher) true,
        Event.sleep 5000000000, Event.start 2 (relayCmd demoPusher) true],
      c.path = "ffmpeg" ∧
        c.args = templateArgs "http://192.168.201.124/stream" "rtmp://192.168.200.68/live/key" :=
  ⟨rfl, (Start_fixed_arguments demoPusher (Outcome.exited "" none)
    [Outcome.launchFail "exec: not found", Outcome.exited "" (some "Broken pipe"),
      Outcome.exited "" none]).2.2.2.2.2.2.2
    (none, { demoPusher with cmd := some (relayCmd demoPusher), currentRetry := 2 },
      [Event.start 0 (relayCmd demoPusher) false,
        Event.sleep 5000000000, Event.start 1 (relayCmd demoPusher) true,
        Event.sleep 5000000000, Event.start 2 (relayCmd demoPusher) true])
    (by decide)⟩

/-! ## The hints -/

/-- Counterexample to C10 as stated: for the input class, the hints for a text
with `502` have one line more than the hints for a text without. -/
theorem PrintErrorSuggestion_depends_on_text :
    PrintErrorSuggestion demoPusher ErrorTypeInputStream "输入流返回错误状态: 502 502 Bad Gateway"
      ≠ PrintErrorSuggestion demoPusher ErrorTypeInputStream "输入流返回错误状态: 404 404 Not Found" := by
  decide

/-- C10, amended: the hint lines are a function of the failure class and, for two
classes, of one fact about the text.  For every class and every two texts the
lines are equal exactly when the texts agree on containing `502` in case the class
is the input class, and on containing `Broken pipe` in case it is the RTMP output
class; for every other class the lines are the same for all texts. -/
theorem PrintErrorSuggestion_pure (sp : StreamPusher) (c : ErrorType) (o1 o2 : String) :
    PrintErrorSuggestion sp c o1 = PrintErrorSuggestion sp c o2 ↔
      ((c = ErrorTypeInputStream → Contains o1 "502" = Contains o2 "502")
        ∧ (c = ErrorTypeRTMPOutput →
            Contains o1 "Broken pipe" = Contains o2 "Broken pipe")) := by
  constructor
  · intro h
    constructor
    · intro hc
      rw [hc] at h
      unfold PrintErrorSuggestion at h
      rw [if_pos rfl, if_pos rfl] at h
      cases h1 : Contains o1 "502" <;> cases h2 : Contains o2 "502" <;>
        simp [h1, h2] at h ⊢
    · intro hc
      rw [hc] at h
      unfold PrintErrorSuggestion at h
      have hne : ¬ ErrorTypeRTMPOutput = ErrorTypeInputStream := by decide
      rw [if_neg hne, if_neg hne, if_pos rfl, if_pos rfl] at h
      cases h1 : Contains o1 "Broken pipe" <;> cases h2 : Contains o2 "Broken pipe" <;>
        simp [h1, h2] at h ⊢
  · rintro ⟨h502, hpipe⟩
    unfold PrintErrorSuggestion
    by_cases h1 : c = ErrorTypeInputStream
    · rw [if_pos h1, if_pos h1, h502 h1]
    · rw [if_neg h1, if_neg h1]
      by_cases h2 : c = ErrorTypeRTMPOutput
      · rw [if_pos h2, if_pos h2, hpipe h2]
      · rw [if_neg h2, if_neg h2]

/-- Witness of C10: for the input class a text with `Broken pipe` and the empty
text, which agree on `502`, get the same lines; for the unknown class a text with
`502` and the empty text do. -/
theorem PrintErrorSuggestion_pure_witness :
    Contains "Broken pipe" "502" = Contains "" "502"
    ∧ PrintErrorSuggestion demoPusher ErrorTypeInputStream "Broken pipe"
        = PrintErrorSuggestion demoPusher ErrorTypeInputStream ""
    ∧ PrintErrorSuggestion demoPusher ErrorTypeUnknown "HTTP error 502"
        = PrintErrorSuggestion demoPusher ErrorTypeUnknown "" :=
  ⟨by decide,
    (PrintErrorSuggestion_pure demoPusher ErrorTypeInputStream "Broken pipe" "").2
      ⟨fun _ => by decide, fun h => absurd h (by decide)⟩,
    (PrintErrorSuggestion_pure demoPusher ErrorTypeUnknown "HTTP error 502" "").2
      ⟨fun h => absurd h (by decide), fun h => absurd h (by decide)⟩⟩

/-! ## The entry point -/

theorem startCount_hints (lines : List String) (tr : List Event) :
    startCount (Event.hints lines :: tr) = startCount tr := by
  simp [startCount]

theorem startCount_append (tr1 tr2 : List Event) :
    startCount (tr1 ++ tr2) = startCount tr1 + startCount tr2 := by
  simp [startCount]

/-- A destination whose locator does not parse to the scheme `rtmp` fails
`CheckRTMPOutput`. -/
theorem CheckRTMPOutput_rejects (w : World) (sp : StreamPusher)
    (hscheme : ∀ u, w.parse sp.outputURL = Except.ok u → u.Scheme ≠ "rtmp") :
    ∃ err, CheckRTMPOutput w sp = some err := by
  unfold CheckRTMPOutput
  cases hp : w.parse sp.outputURL with
  | error e => exact ⟨_, rfl⟩
  | ok u =>
    have hne : u.Scheme ≠ "rtmp" := hscheme u hp
    simp only [if_pos hne]
    exact ⟨_, rfl⟩

/-- A destination that fails its check ends `main` with code 1 and no call of
`Start`, from the check of the output address on. -/
theorem mainFromOutputCheck_fatal (w : World) (pusher : StreamPusher) (checkOnly : Bool)
    (outs : List Outcome) (tr1 : List Event) (err : GoError)
    (herr : CheckRTMPOutput w pusher = some err) :
    ∃ tr, mainFromOutputCheck w pusher checkOnly outs tr1 = some (1, tr)
      ∧ startCount tr = startCount tr1 := by
  unfold mainFromOutputCheck
  rw [herr]
  exact ⟨_, rfl, by rw [startCount_append, startCount_hints]; rfl⟩

/-- A destination that fails its check ends `main` with code 1 and no call of
`Start`, whatever the source check said and with or without `--check`. -/
theorem main_destination_fatal (w : World) (inputURL outputURL : String) (checkOnly : Bool)
    (outs : List Outcome)
    (hscheme : ∀ u, w.parse outputURL = Except.ok u → u.Scheme ≠ "rtmp") :
    ∃ tr, main w inputURL outputURL checkOnly outs = some (1, tr) ∧ startCount tr = 0 := by
  obtain ⟨err, herr⟩ := CheckRTMPOutput_rejects w (NewStreamPusher inputURL outputURL) hscheme
  unfold main
  by_cases hempty : inputURL = "" ∨ outputURL = ""
  · rw [if_pos hempty]
    exact ⟨[], rfl, rfl⟩
  · rw [if_neg hempty]
    cases hin : CheckInputStream w (NewStreamPusher inputURL outputURL) with
    | none =>
      obtain ⟨tr, h1, h2⟩ := mainFromOutputCheck_fatal w _ checkOnly outs [] err herr
      simp only [hin]
      exact ⟨tr, h1, h2⟩
    | some e =>
      simp only [hin]
      cases checkOnly with
      | true => exact ⟨_, rfl, startCount_hints _ _⟩
      | false =>
        obtain ⟨tr, h1, h2⟩ := mainFromOutputCheck_fatal w _ false outs
          [Event.hints (PrintErrorSuggestion (NewStreamPusher inputURL outputURL)
            ErrorTypeInputStream e.Error)] err herr
        exact ⟨tr, h1, by rw [h2]; rfl⟩

/-- With `--check` a failed source check ends `main` with code 1 and no call of
`Start`. -/
theorem main_check_source_fatal (w : World) (inputURL outputURL : String)
    (outs : List Outcome) (err : GoError)
    (herr : CheckInputStream w (NewStreamPusher inputURL outputURL) = some err) :
    ∃ tr, main w inputURL outputURL true outs = some (1, tr) ∧ startCount tr = 0 := by
  unfold main
  by_cases hempty : inputURL = "" ∨ outputURL = ""
  · rw [if_pos hempty]
    exact ⟨[], rfl, rfl⟩
  · rw [if_neg hempty]
    simp only [herr, if_true]
    exact ⟨_, rfl, startCount_hints _ _⟩

/-- With `--check` and both checks passing `main` ends with code 0 and no call
of `Start`. -/
theorem main_check_pass (w : World) (inputURL outputURL : String) (outs : List Outcome)
    (hi : inputURL ≠ "") (ho : outputURL ≠ "")
    (hin : CheckInputStream w (NewStreamPusher inputURL outputURL) = none)
    (hout : CheckRTMPOutput w (NewStreamPusher inputURL outputURL) = none) :
    main w inputURL outputURL true outs = some (0, []) := by
  unfold main
  rw [if_neg (by simp [hi, ho])]
  simp only [hin, mainFromOutputCheck, hout, if_true]

/-- The exit code and the number of calls of `Start` when the rest of `main`
reaches the retry loop. -/
theorem mainFromOutputCheck_loop (w : World) (pusher : StreamPusher) (outs : List Outcome)
    (tr1 : List Event) (htr1 : startCount tr1 = 0)
    (hout : CheckRTMPOutput w pusher = none) :
    (mainFromOutputCheck w pusher false outs tr1).map (fun r => (r.1, startCount r.2)) =
      (StartWithRetry pusher outs).map
        (fun r => ((if r.1.isSome then 1 else 0 : Int), startCount r.2.2)) := by
  unfold mainFromOutputCheck
  rw [hout]
  simp only [Bool.false_eq_true, if_false]
  cases hrun : StartWithRetry pusher outs with
  | none => rfl
  | some r =>
    obtain ⟨e, sp, tr2⟩ := r
    cases e with
    | none => simp [startCount_append, htr1]
    | some err =>
      simp only [Option.map_some', Option.isSome_some, if_true, startCount_append, htr1,
        startCount_hints, zero_add]
      rfl

/-- Without `--check`, when the destination validates, `main` runs the retry loop
on the new pusher whatever the source check said: its exit code is 1 when the loop
returns an error and 0 when it returns `nil`, and its calls of `Start` are those
of the loop. -/
theorem main_enters_loop (w : World) (inputURL outputURL : String) (outs : List Outcome)
    (hi : inputURL ≠ "") (ho : outputURL ≠ "")
    (hout : CheckRTMPOutput w (NewStreamPusher inputURL outputURL) = none) :
    (main w inputURL outputURL false outs).map (fun r => (r.1, startCount r.2)) =
      (StartWithRetry (NewStreamPusher inputURL outputURL) outs).map
        (fun r => ((if r.1.isSome then 1 else 0 : Int), startCount r.2.2)) := by
  unfold main
  rw [if_neg (by simp [hi, ho])]
  cases hin : CheckInputStream w (NewStreamPusher inputURL outputURL) with
  | none =>
    simp only [hin]
    exact mainFromOutputCheck_loop w _ outs [] rfl hout
  | some e =>
    simp only [hin, Bool.false_eq_true, if_false]
    exact mainFromOutputCheck_loop w _ outs _ (startCount_hints _ _) hout

/-- C5: destination scheme validation.  When the destination locator does not
parse to a locator of scheme `rtmp` (another scheme, no scheme, or no parse),
`CheckRTMPOutput` returns an error and `main` exits with code 1 without a call of
`Start`, with and without `--check`; a locator that parses with scheme `rtmp` is
accepted by `CheckRTMPOutput`. -/
theorem main_rejects_non_rtmp_destination (w : World) (sp : StreamPusher)
    (inputURL : String) (checkOnly : Bool) (outs : List Outcome)
    (hscheme : ∀ u, w.parse sp.outputURL = Except.ok u → u.Scheme ≠ "rtmp") :
    (∃ err, CheckRTMPOutput w sp = some err)
      ∧ (∃ tr, main w inputURL sp.outputURL checkOnly outs = some (1, tr) ∧ startCount tr = 0)
      ∧ (∀ (w2 : World) (sp2 : StreamPusher) (u : URL),
          w2.parse sp2.outputURL = Except.ok u → u.Scheme = "rtmp" →
            CheckRTMPOutput w2 sp2 = none) := by
  refine ⟨CheckRTMPOutput_rejects w sp hscheme,
    main_destination_fatal w inputURL sp.outputURL checkOnly outs hscheme, ?_⟩
  intro w2 sp2 u hp hs
  unfold CheckRTMPOutput
  rw [hp]
  simp only [hs, ne_eq, not_true_eq_false, if_false]

/-- Witness of C5: the destination `http://192.168.200.68/live/key`, without
`--check`, with a relay that would exit cleanly. -/
theorem main_rejects_non_rtmp_destination_witness :
    demoWorld.parse "http://192.168.200.68/live/key"
        = Except.ok { Scheme := "http", Host := "192.168.200.68", Path := "/live/key" }
    ∧ ∃ tr, main demoWorld "http://192.168.201.124/stream" "http://192.168.200.68/live/key"
        false [Outcome.exited "" none] = some (1, tr) ∧ startCount tr = 0 :=
  ⟨rfl, (main_rejects_non_rtmp_destination demoWorld
    (NewStreamPusher "http://192.168.201.124/stream" "http://192.168.200.68/live/key")
    "http://192.168.201.124/stream" false [Outcome.exited "" none]
    (by
      intro u h
      cases h
      decide)).2.1⟩

/-- Counterexample to C7 as stated: the source locator `://192.168.201.124/stream`
does not parse, `--check` is not given, the destination is valid: `main` launches
the relay once and exits with code 0. -/
theorem main_source_parse_error_not_fatal :
    demoWorld.parse "://192.168.201.124/stream" = Except.error "missing protocol scheme"
    ∧ (main demoWorld "://192.168.201.124/stream" "rtmp://192.168.200.68/live/key" false
        [Outcome.exited "" none]).map (fun r => (r.1, startCount r.2)) = some (0, 1) :=
  ⟨rfl, by decide⟩

/-- C7, amended: a destination locator that does not parse, or parses to a scheme
other than `rtmp`, ends `main` with code 1 and no call of `Start`, with and
without `--check`.  A source locator that does not parse fails the source check;
with `--check` that ends `main` with code 1 and no call of `Start`; without
`--check` it is advisory, like a failed probe: when the destination validates,
`main` runs the retry loop. -/
theorem main_locator_errors (w : World) (inputURL outputURL : String) (checkOnly : Bool)
    (outs : List Outcome) :
    ((∀ u, w.parse outputURL = Except.ok u → u.Scheme ≠ "rtmp") →
        ∃ tr, main w inputURL outputURL checkOnly outs = some (1, tr) ∧ startCount tr = 0)
      ∧ ((∃ e, w.parse inputURL = Except.error e) →
          (∃ err, CheckInputStream w (NewStreamPusher inputURL outputURL) = some err)
          ∧ ∃ tr, main w inputURL outputURL true outs = some (1, tr) ∧ startCount tr = 0)
      ∧ ((∃ e, w.parse inputURL = Except.error e) → inputURL ≠ "" → outputURL ≠ "" →
          CheckRTMPOutput w (NewStreamPusher inputURL outputURL) = none →
          (main w inputURL outputURL false outs).map (fun r => (r.1, startCount r.2)) =
            (StartWithRetry (NewStreamPusher inputURL outputURL) outs).map
              (fun r => ((if r.1.isSome then 1 else 0 : Int), startCount r.2.2))) := by
  have hsrc : (∃ e, w.parse inputURL = Except.error e) →
      ∃ err, CheckInputStream w (NewStreamPusher inputURL outputURL) = some err := by
    rintro ⟨e, he⟩
    have he2 : w.parse (NewStreamPusher inputURL outputURL).inputURL = Except.error e := he
    unfold CheckInputStream
    rw [he2]
    exact ⟨_, rfl⟩
  refine ⟨main_destination_fatal w inputURL outputURL checkOnly outs, ?_, ?_⟩
  · intro h
    obtain ⟨err, herr⟩ := hsrc h
    exact ⟨⟨err, herr⟩, main_check_source_fatal w inputURL outputURL outs err herr⟩
  · intro _ hi ho hout
    exact main_enters_loop w inputURL outputURL outs hi ho hout

/-- Witness of C7: the source `://192.168.201.124/stream` with `--check` ends the
run with code 1; the destination `192.168.200.68/live/key`, without a scheme,
ends it with code 1 without `--check`. -/
theorem main_locator_errors_witness :
    (∃ tr, main demoWorld "http://192.168.201.124/stream" "192.168.200.68/live/key" false
        [Outcome.exited "" none] = some (1, tr) ∧ startCount tr = 0)
    ∧ (∃ tr, main demoWorld "://192.168.201.124/stream" "rtmp://192.168.200.68/live/key" true
        [Outcome.exited "" none] = some (1, tr) ∧ startCount tr = 0) :=
  ⟨(main_locator_errors demoWorld "http://192.168.201.124/stream" "192.168.200.68/live/key"
      false [Outcome.exited "" none]).1
      (by
        intro u h
        cases h
        decide),
    ((main_locator_errors demoWorld "://192.168.201.124/stream"
      "rtmp://192.168.200.68/live/key" true [Outcome.exited "" none]).2.1
      ⟨"missing protocol scheme", rfl⟩).2⟩

/-- C8: preflight outcome policy of `main`, both locators given.  With `--check`
there is no call of `Start` and the exit code is 0 when both checks pass and 1
when one fails.  Without `--check`, when the destination validates, `main` runs
the retry loop on the new pusher whether the source check passed or failed: its
exit code and its calls of `Start` are those of the loop. -/
theorem main_preflight_policy (w : World) (inputURL outputURL : String)
    (outs : List Outcome) (hi : inputURL ≠ "") (ho : outputURL ≠ "") :
    (∃ tr, main w inputURL outputURL true outs =
        some ((if (CheckInputStream w (NewStreamPusher inputURL outputURL)).isNone = true ∧
          (CheckRTMPOutput w (NewStreamPusher inputURL outputURL)).isNone = true
          then 0 else 1), tr) ∧ startCount tr = 0)
      ∧ (CheckRTMPOutput w (NewStreamPusher inputURL outputURL) = none →
          (main w inputURL outputURL false outs).map (fun r => (r.1, startCount r.2)) =
            (StartWithRetry (NewStreamPusher inputURL outputURL) outs).map
              (fun r => ((if r.1.isSome then 1 else 0 : Int), startCount r.2.2))) := by
  refine ⟨?_, main_enters_loop w inputURL outputURL outs hi ho⟩
  cases hin : CheckInputStream w (NewStreamPusher inputURL outputURL) with
  | some err =>
    obtain ⟨tr, h1, h2⟩ := main_check_source_fatal w inputURL outputURL outs err hin
    exact ⟨tr, by simpa using h1, h2⟩
  | none =>
    cases hout : CheckRTMPOutput w (NewStreamPusher inputURL outputURL) with
    | none =>
      exact ⟨[], by simpa using main_check_pass w inputURL outputURL outs hi ho hin hout, rfl⟩
    | some err =>
      have h := mainFromOutputCheck_fatal w (NewStreamPusher inputURL outputURL) true outs []
        err hout
      obtain ⟨tr, h1, h2⟩ := h
      refine ⟨tr, ?_, h2⟩
      unfold main
      rw [if_neg (by simp [hi, ho])]
      simp only [hin]
      simpa using h1

/-- Witness of C8: the camera answers the probe with 502 and the destination is
valid.  With `--check` the run ends with code 1 and no attempt; without it the
relay is launched and its clean exit ends the run with code 0. -/
theorem main_preflight_policy_witness :
    (∃ err, CheckInputStream demoWorld demoPusher = some err)
    ∧ CheckRTMPOutput demoWorld demoPusher = none
    ∧ (∃ tr, main demoWorld "http://192.168.201.124/stream" "rtmp://192.168.200.68/live/key"
        true [Outcome.exited "" none] = some (1, tr) ∧ startCount tr = 0)
    ∧ (main demoWorld "http://192.168.201.124/stream" "rtmp://192.168.200.68/live/key"
        false [Outcome.exited "" none]).map (fun r => (r.1, startCount r.2)) = some (0, 1) :=
  ⟨⟨_, rfl⟩, rfl,
    (main_preflight_policy demoWorld "http://192.168.201.124/stream"
      "rtmp://192.168.200.68/live/key" [Outcome.exited "" none] (by decide) (by decide)).1,
    ((main_preflight_policy demoWorld "http://192.168.201.124/stream"
      "rtmp://192.168.200.68/live/key" [Outcome.exited "" none] (by decide) (by decide)).2
      rfl).trans (by decide)⟩

end PushStream
